import Mathlib

/-!
# Verification of the MangaLib downloader core (`src/main.py`)

Shallow embedding of the pure logic of `main.py`: JSON values are modelled by
an inductive `JVal` (Python `None` is JSON `null`, so `dict.get` with default
`None` is modelled by a lookup defaulting to `JVal.null`); Python numbers are
modelled by `Rat` (exact where the program's values are exact, which is the
only case the theorems exercise); fallible code returns `Option` where
`none` stands for a raised exception; the network is an explicit environment
(`Env`) mapping each request the code can make to its outcome.  Real-time
sleeps, the aiohttp session, tqdm progress bars and console printing have no
effect on the computed results and are not modelled; concurrency bounds only
throttle scheduling, and the archive step restores page order by filename
sort, so the functional results below are completion-order independent by
construction.
-/

/-- JSON values as decoded by `resp.json()` in `main.py`.  Python `None`
(absent key default / JSON null) is `JVal.null`; objects keep field order as
an association list, mirroring Python dict insertion order. -/
inductive JVal where
  | null : JVal
  | jbool : Bool → JVal
  | jnum : Rat → JVal
  | jstr : String → JVal
  | arr : List JVal → JVal
  | obj : List (String × JVal) → JVal

namespace JVal

/-- Python truthiness (`if x:`) of a decoded JSON value. -/
def truthy : JVal → Bool
  | .null => false
  | .jbool b => b
  | .jnum q => !(q == 0)
  | .jstr s => !(s == "")
  | .arr l => !l.isEmpty
  | .obj f => !f.isEmpty

/-- `x is None` test. -/
def isNull : JVal → Bool
  | .null => true
  | _ => false

/-- `isinstance(x, dict)` test. -/
def isObj : JVal → Bool
  | .obj _ => true
  | _ => false

end JVal

/-- Association-list lookup with decidable string keys (Python dict access). -/
def lookupAssoc {α : Type} (k : String) : List (String × α) → Option α
  | [] => none
  | (k₁, v) :: rest => if k = k₁ then some v else lookupAssoc k rest

/-- `d.get(key, default)` on a decoded JSON object. -/
def jGetD (f : List (String × JVal)) (k : String) (d : JVal) : JVal :=
  (lookupAssoc k f).getD d

/-- `d.get(key)` — the default is Python `None`, i.e. `JVal.null`. -/
def pyGet (f : List (String × JVal)) (k : String) : JVal :=
  jGetD f k .null

/-- Python `a or b` on decoded JSON values. -/
def pyOr (a b : JVal) : JVal :=
  if a.truthy then a else b

/-- Python `a or b` on strings (empty string is falsy). -/
def pyOrStr (a b : String) : String :=
  if a = "" then b else a

/-- Python `a or b` where `a` is an `Optional[str]` (both `None` and `""` are
falsy). -/
def pyOrStrOpt (a : Option String) (b : String) : String :=
  match a with
  | none => b
  | some s => if s = "" then b else s

/-- Truthiness of an `Optional[str]`. -/
def pyTruthyOpt : Option String → Bool
  | none => false
  | some s => !(s == "")

/-- Python `s.strip()`: drop whitespace from both ends. -/
def pyStrip (s : String) : String :=
  ⟨((s.data.dropWhile Char.isWhitespace).reverse.dropWhile Char.isWhitespace).reverse⟩

/-- `s.startswith(pre)` on char lists. -/
def listStarts : List Char → List Char → Bool
  | _, [] => true
  | [], _ :: _ => false
  | a :: as, b :: bs => a == b && listStarts as bs

/-- Python `s.startswith(pre)`. -/
def strStarts (s pre : String) : Bool :=
  listStarts s.data pre.data

/-- Value of a nonempty all-digit string, as read by Python `float`/`int`. -/
def digitsVal (s : String) : Nat :=
  s.data.foldl (fun a c => a * 10 + (c.toNat - 48)) 0

/-- `s.isdigit()` for the ASCII strings HTTP headers contain. -/
def isdigitStr (s : String) : Bool :=
  !s.data.isEmpty && s.data.all Char.isDigit

/-- Split the longest digit prefix off a char list. -/
def spanDigits : List Char → List Char × List Char
  | [] => ([], [])
  | c :: cs =>
      if c.isDigit then
        let (d, r) := spanDigits cs
        (c :: d, r)
      else ([], c :: cs)

/-- Sign prefix: returns (negative?, rest). -/
def takeSign : List Char → Bool × List Char
  | '-' :: cs => (true, cs)
  | '+' :: cs => (false, cs)
  | cs => (false, cs)

/-- Model of Python `float(s)` restricted to finite decimal/exponent
literals (the shapes the program's data can contain): optional surrounding
whitespace, optional sign, digits with optional fractional part, optional
decimal exponent.  `inf`/`nan` and underscore separators are not modelled. -/
def parsePyFloat (s : String) : Option Rat :=
  let cs := (pyStrip s).data
  let (neg, cs) := takeSign cs
  let (ip, cs) := spanDigits cs
  let (fp, cs) :=
    match cs with
    | '.' :: rest => spanDigits rest
    | _ => ([], cs)
  if ip = [] ∧ fp = [] then none
  else
    let mant : Rat := (digitsVal (String.mk ip) : Rat) +
      (digitsVal (String.mk fp) : Rat) / (10 : Rat) ^ fp.length
    let signed := if neg then -mant else mant
    match cs with
    | [] => some signed
    | 'e' :: rest => parseExpPart signed rest
    | 'E' :: rest => parseExpPart signed rest
    | _ => none
where
  parseExpPart (m : Rat) (cs : List Char) : Option Rat :=
    let (eneg, cs) := takeSign cs
    let (ed, cs) := spanDigits cs
    if ed = [] ∨ cs ≠ [] then none
    else
      let e := digitsVal (String.mk ed)
      some (if eneg then m / (10 : Rat) ^ e else m * (10 : Rat) ^ e)

/-- Model of Python `int(s)`: optional whitespace, sign, digits only. -/
def parsePyInt (s : String) : Option Int :=
  let cs := (pyStrip s).data
  let (neg, cs) := takeSign cs
  let (ip, cs) := spanDigits cs
  if ip = [] ∨ cs ≠ [] then none
  else
    let n : Int := (digitsVal (String.mk ip) : Int)
    some (if neg then -n else n)

/-- Python `int(q)` on a number: truncation toward zero. -/
def ratTrunc (q : Rat) : Int :=
  if 0 ≤ q.num then (q.num.toNat / q.den : Nat)
  else -(((-q.num).toNat / q.den : Nat) : Int)

/-- `MangaAPIClient._to_float(str(x))` applied to a decoded JSON value `x`:
numbers round-trip through `str`; strings are parsed, retrying with `,`
replaced by `.`; any other value's `str()` form fails to parse. -/
def jToFloat : JVal → Option Rat
  | .jnum q => some q
  | .jstr s =>
      match parsePyFloat s with
      | some q => some q
      | none => parsePyFloat ⟨s.data.map (fun c => if c = ',' then '.' else c)⟩
  | _ => none

/-- Python `int(x)` on a decoded JSON value, `none` when it raises
`ValueError`/`TypeError` (`int(True) = 1` in Python). -/
def pyInt : JVal → Option Int
  | .jnum q => some (ratTrunc q)
  | .jstr s => parsePyInt s
  | .jbool b => some (if b then 1 else 0)
  | _ => none

/-- The fields of `Config` that influence the computed results (the
remaining fields — output directory, concurrency bounds, delays, API base
and referer URLs — only affect I/O scheduling and request addressing and
are absorbed into the network environment below). -/
structure Config where
  manga_slug : String
  series_title_override : Option String := none
  volume_override : Option Int := none
  fallback_lo : Int := 1
  fallback_hi : Int := 15
  cleanup_temp : Bool := true
  image_host : String := "https://img3.mixlib.me"

/-- Network environment for one run: the decoded outcome of every request
the program can issue.  `none` models a request whose retry budget was
exhausted, i.e. one that raises at the call site. -/
structure Env where
  /-- `_get_json` on `{api_base}/{slug}/chapters`. -/
  chaptersResp : Option JVal
  /-- `_get_json` on `{api_base}/{slug}`. -/
  seriesResp : Option JVal
  /-- `fetch_chapter_data slug n v`, keyed by chapter number and volume. -/
  chapterResp : Int → Int → Option JVal
  /-- whether `download_image` eventually succeeds for a given URL. -/
  imageOk : String → Bool

/-- Python dict assignment `mapping[k] = v` on the association-list model:
replaces in place, else appends (dict insertion order). -/
def mapInsert (k : Rat) (v : Int) : List (Rat × Int) → List (Rat × Int)
  | [] => [(k, v)]
  | (k₁, v₁) :: rest =>
      if k = k₁ then (k, v) :: rest else (k₁, v₁) :: mapInsert k v rest

/-- `target in cmap` / `cmap[target]` lookup. -/
def lookupR (k : Rat) : List (Rat × Int) → Option Int
  | [] => none
  | (k₁, v) :: rest => if k = k₁ then some v else lookupR k rest

/-- The item loop of `fetch_chapters_list` (`main.py` lines 164-177): each
item must be a dict (`item.get` on anything else raises, which the caller
turns into an empty mapping, hence `none` here); items missing `number` or
`volume`, or whose `volume` does not convert with `int`, or whose `number`
does not parse as a float, are skipped. -/
def buildMapping : List JVal → List (Rat × Int) → Option (List (Rat × Int))
  | [], acc => some acc
  | .obj f :: rest, acc =>
      let num := pyGet f "number"
      let vol := pyGet f "volume"
      if num.isNull || vol.isNull then buildMapping rest acc
      else
        let nf := jToFloat num
        match pyInt vol with
        | none => buildMapping rest acc
        | some vi =>
            match nf with
            | some x => buildMapping rest (mapInsert x vi acc)
            | none => buildMapping rest acc
  | _ :: _, _ => none

/-- Result of `fetch_chapters_list` for a given network outcome (the caching
wrapper is modelled separately as `fetch_chapters_list` below): any raised
exception — failed fetch, non-list `data`, non-dict item — yields the empty
mapping (`main.py` lines 157-179). -/
def fetch_chapters_mapping (resp : Option JVal) : List (Rat × Int) :=
  match resp with
  | none => []
  | some d =>
      let items := match d with
        | .obj f => jGetD f "data" (.arr [])
        | _ => .arr []
      match items with
      | .arr l => (buildMapping l []).getD []
      | .obj _ => []
      | .jstr _ => []
      | _ => []

/-- Result of `fetch_series_info` for a given network outcome (`main.py`
lines 188-193): `data.get("data", {})` when the response is a dict, `{}` on
a failed fetch or non-dict response. -/
def fetch_series_result (resp : Option JVal) : JVal :=
  match resp with
  | none => .obj []
  | some (.obj f) => jGetD f "data" (.obj [])
  | some _ => .obj []

/-- One node of the metadata deep search (`main.py` lines 219-228): a dict
exposing `number` (or, when that is falsy, `chapter_number`) and `volume`,
whose number normalizes to the target; yields `int(volume)` when that
conversion succeeds, otherwise the search continues into the children. -/
def checkNode (t : Rat) (fields : List (String × JVal)) : Option Int :=
  let num := pyOr (pyGet fields "number") (pyGet fields "chapter_number")
  let vol := pyGet fields "volume"
  if !num.isNull && !vol.isNull then
    if jToFloat num = some t then pyInt vol else none
  else none

mutual
/-- The depth-first `search` closure of `resolve_volume` (`main.py` lines
218-238): first match wins; dict values are visited in insertion order. -/
def searchJ (t : Rat) : JVal → Option Int
  | .obj fields =>
      (match checkNode t fields with
       | some v => some v
       | none => searchFields t fields)
  | .arr items => searchItems t items
  | _ => none

def searchFields (t : Rat) : List (String × JVal) → Option Int
  | [] => none
  | (_, v) :: rest =>
      match searchJ t v with
      | some r => some r
      | none => searchFields t rest

def searchItems (t : Rat) : List JVal → Option Int
  | [] => none
  | v :: rest =>
      match searchJ t v with
      | some r => some r
      | none => searchItems t rest
end

/-- The probing loop of `resolve_volume` (`main.py` lines 249-255): try
consecutive volumes ascending from `v`, `n` volumes in total, accepting the
first for which the chapter-manifest fetch succeeds. -/
def probeRange (env : Env) (ch : Int) (v : Int) : Nat → Option Int
  | 0 => none
  | n + 1 =>
      if (env.chapterResp ch v).isSome then some v
      else probeRange env ch (v + 1) n

/-- `MangaAPIClient.resolve_volume` (`main.py` lines 206-257).  `none`
models the final `raise ValueError`. -/
def resolve_volume (cfg : Config) (env : Env) (ch : Int) : Option Int :=
  match cfg.volume_override with
  | some v => some v
  | none =>
      let cmap := fetch_chapters_mapping env.chaptersResp
      let target : Rat := (ch : Rat)
      match (if cmap.isEmpty then none else lookupR target cmap) with
      | some v => some v
      | none =>
          let meta := fetch_series_result env.seriesResp
          let probe := probeRange env ch cfg.fallback_lo
            ((cfg.fallback_hi + 1 - cfg.fallback_lo).toNat)
          match searchJ target meta with
          | some d => if (env.chapterResp ch d).isSome then some d else probe
          | none => probe

theorem lookupR_nil (k : Rat) : lookupR k [] = none := rfl

/-- `probeRange` returns exactly the least volume in its window whose
chapter-manifest fetch succeeds. -/
theorem probeRange_eq_some_iff (env : Env) (ch : Int) (v w : Int) (n : Nat) :
    probeRange env ch v n = some w ↔
      v ≤ w ∧ w < v + n ∧ (env.chapterResp ch w).isSome = true ∧
      ∀ u, v ≤ u → u < w → (env.chapterResp ch u).isSome = false := by
  induction n generalizing v with
  | zero =>
      simp only [probeRange]
      constructor
      · intro h; cases h
      · rintro ⟨h1, h2, -, -⟩; omega
  | succ n ih =>
      simp only [probeRange]
      by_cases h : (env.chapterResp ch v).isSome = true
      · rw [if_pos h]
        constructor
        · intro hw
          injection hw with hw
          subst hw
          exact ⟨le_refl _, by omega, h, fun u h1 h2 => absurd (h1.trans_lt h2) (lt_irrefl v)⟩
        · rintro ⟨h1, h2, h3, h4⟩
          have hvw : v = w := by
            by_contra hne
            have hlt : v < w := lt_of_le_of_ne h1 hne
            have := h4 v (le_refl _) hlt
            rw [h] at this
            cases this
          rw [hvw]
      · rw [if_neg h, ih]
        have hv : (env.chapterResp ch v).isSome = false := by
          cases hx : (env.chapterResp ch v).isSome
          · rfl
          · exact absurd hx h
        constructor
        · rintro ⟨h1, h2, h3, h4⟩
          refine ⟨by omega, by omega, h3, fun u hu1 hu2 => ?_⟩
          rcases eq_or_lt_of_le hu1 with rfl | hlt
          · exact hv
          · exact h4 u (by omega) hu2
        · rintro ⟨h1, h2, h3, h4⟩
          have hne : v ≠ w := by
            intro he
            rw [← he, hv] at h3
            cases h3
          exact ⟨by omega, by omega, h3, fun u hu1 hu2 => h4 u (by omega) hu2⟩

/-- C1: the cascading resolution strategy of `resolve_volume`, in order,
short-circuiting on first success.  (1) A configured volume override is
returned unconditionally, for every environment — no lookup can influence
the result.  (2) Otherwise an exact float-key hit in the cached chapters
listing is returned, whatever the series metadata, chapter-manifest and
image environments are — neither the metadata search nor probing is
consulted.  (3) Otherwise, a metadata deep-search candidate whose
speculative manifest fetch succeeds is returned.  (4) Otherwise — no
candidate, or the candidate failed confirmation — the result is exactly the
first volume in the configured range `[fallback_lo, fallback_hi]`, tried in
ascending order, whose manifest fetch succeeds. -/
theorem C1_resolve_volume_cascade :
    (∀ (cfg : Config) (env : Env) (ch v : Int), cfg.volume_override = some v →
       resolve_volume cfg env ch = some v) ∧
    (∀ (cfg : Config) (env : Env) (ch v : Int), cfg.volume_override = none →
       lookupR (ch : Rat) (fetch_chapters_mapping env.chaptersResp) = some v →
       ∀ sr cr io, resolve_volume cfg ⟨env.chaptersResp, sr, cr, io⟩ ch = some v) ∧
    (∀ (cfg : Config) (env : Env) (ch d : Int), cfg.volume_override = none →
       lookupR (ch : Rat) (fetch_chapters_mapping env.chaptersResp) = none →
       searchJ (ch : Rat) (fetch_series_result env.seriesResp) = some d →
       (env.chapterResp ch d).isSome = true →
       resolve_volume cfg env ch = some d) ∧
    (∀ (cfg : Config) (env : Env) (ch : Int), cfg.volume_override = none →
       lookupR (ch : Rat) (fetch_chapters_mapping env.chaptersResp) = none →
       (match searchJ (ch : Rat) (fetch_series_result env.seriesResp) with
        | none => True
        | some d => (env.chapterResp ch d).isSome = false) →
       ∀ w, resolve_volume cfg env ch = some w ↔
         cfg.fallback_lo ≤ w ∧ w ≤ cfg.fallback_hi ∧
         (env.chapterResp ch w).isSome = true ∧
         ∀ u, cfg.fallback_lo ≤ u → u < w →
           (env.chapterResp ch u).isSome = false) := by
  refine ⟨?_, ?_, ?_, ?_⟩
  · intro cfg env ch v hov
    simp [resolve_volume, hov]
  · intro cfg env ch v hov hlook sr cr io
    have hne : fetch_chapters_mapping env.chaptersResp ≠ [] := by
      intro he
      rw [he] at hlook
      cases hlook
    simp only [resolve_volume, hov]
    rw [if_neg (by simpa [List.isEmpty_iff] using hne)]
    rw [hlook]
  · intro cfg env ch d hov hlook hsearch hconf
    simp only [resolve_volume, hov]
    by_cases he : (fetch_chapters_mapping env.chaptersResp).isEmpty
    · rw [if_pos he, hsearch]
      simp [hconf]
    · rw [if_neg he, hlook, hsearch]
      simp [hconf]
  · intro cfg env ch hov hlook hnoconf w
    have hprobe : resolve_volume cfg env ch =
        probeRange env ch cfg.fallback_lo
          ((cfg.fallback_hi + 1 - cfg.fallback_lo).toNat) := by
      simp only [resolve_volume, hov]
      by_cases he : (fetch_chapters_mapping env.chaptersResp).isEmpty
      · rw [if_pos he]
        cases hs : searchJ (ch : Rat) (fetch_series_result env.seriesResp) with
        | none => rfl
        | some d =>
            rw [hs] at hnoconf
            simp only []
            rw [if_neg (by rw [hnoconf]; exact Bool.false_ne_true)]
      · rw [if_neg he, hlook]
        cases hs : searchJ (ch : Rat) (fetch_series_result env.seriesResp) with
        | none => rfl
        | some d =>
            rw [hs] at hnoconf
            simp only []
            rw [if_neg (by rw [hnoconf]; exact Bool.false_ne_true)]
    rw [hprobe, probeRange_eq_some_iff]
    constructor
    · rintro ⟨h1, h2, h3, h4⟩
      exact ⟨h1, by omega, h3, h4⟩
    · rintro ⟨h1, h2, h3, h4⟩
      exact ⟨h1, by omega, h3, h4⟩

/-- A network environment where every request fails. -/
def envAllFail : Env := ⟨none, none, fun _ _ => none, fun _ => true⟩

def cfgC1a : Config := { manga_slug := "s", volume_override := some 7 }

def cfgC1 : Config := { manga_slug := "s" }

def envC1b : Env :=
  ⟨some (.obj [("data", .arr [.obj [("number", .jnum 3), ("volume", .jnum 4)]])]),
   none, fun _ _ => none, fun _ => true⟩

def envC1c : Env :=
  ⟨none,
   some (.obj [("data", .obj [("chapters",
     .arr [.obj [("number", .jnum 3), ("volume", .jnum 5)]])])]),
   fun n v => if n == 3 && v == 5 then some (.obj []) else none,
   fun _ => true⟩

def envC1d : Env :=
  ⟨none, none, fun _ v => if v == 2 then some (.obj []) else none, fun _ => true⟩

/-- Witness for C1: each stage of the cascade exercised at a concrete
input — override, index hit, confirmed metadata candidate, and ascending
probe stopping at volume 2. -/
theorem C1_resolve_volume_cascade_witness :
    resolve_volume cfgC1a envAllFail 3 = some 7 ∧
    resolve_volume cfgC1 envC1b 3 = some 4 ∧
    resolve_volume cfgC1 envC1c 3 = some 5 ∧
    resolve_volume cfgC1 envC1d 3 = some 2 := by
  refine ⟨C1_resolve_volume_cascade.1 cfgC1a envAllFail 3 7 rfl, ?_, ?_, ?_⟩
  · have h := C1_resolve_volume_cascade.2.1 cfgC1 envC1b 3 4 rfl (by decide)
      envC1b.seriesResp envC1b.chapterResp envC1b.imageOk
    exact h
  · exact C1_resolve_volume_cascade.2.2.1 cfgC1 envC1c 3 5 rfl (by decide)
      (by decide) (by decide)
  · exact (C1_resolve_volume_cascade.2.2.2 cfgC1 envC1d 3 rfl (by decide)
      trivial 2).mpr
      ⟨by decide, by decide, by decide, by
        intro u h1 h2
        have h3 : cfgC1.fallback_lo = 1 := rfl
        rw [h3] at h1
        have hu : u = 1 := by omega
        subst hu
        decide⟩

mutual
/-- Modelled from the spec: the claim for C2 reads stage 3 of §4.2 as a
search that, when a candidate's confirmation fails, "continues searching the
metadata structure for further candidate matches".  `main.py` has no such
loop (its `search` returns only the first match), so the claimed behaviour
is modelled here from the spec's words: collect every candidate match in
depth-first order. -/
def searchAllJ (t : Rat) : JVal → List Int
  | .obj fields =>
      (match checkNode t fields with
       | some v => [v]
       | none => []) ++ searchAllFields t fields
  | .arr items => searchAllItems t items
  | _ => []

def searchAllFields (t : Rat) : List (String × JVal) → List Int
  | [] => []
  | (_, v) :: rest => searchAllJ t v ++ searchAllFields t rest

def searchAllItems (t : Rat) : List JVal → List Int
  | [] => []
  | v :: rest => searchAllJ t v ++ searchAllItems t rest
end

/-- Modelled from the spec (C2): accept the first candidate whose
speculative chapter-manifest fetch succeeds. -/
def firstConfirmed (env : Env) (ch : Int) : List Int → Option Int
  | [] => none
  | c :: cs =>
      if (env.chapterResp ch c).isSome then some c
      else firstConfirmed env ch cs

/-- Modelled from the spec (C2): `resolve_volume` as the claim describes it,
identical to the code except that stage 3 keeps searching the metadata for
further candidates when a candidate's confirmation fails. -/
def resolve_volume_specSearch (cfg : Config) (env : Env) (ch : Int) : Option Int :=
  match cfg.volume_override with
  | some v => some v
  | none =>
      let cmap := fetch_chapters_mapping env.chaptersResp
      let target : Rat := (ch : Rat)
      match (if cmap.isEmpty then none else lookupR target cmap) with
      | some v => some v
      | none =>
          let meta := fetch_series_result env.seriesResp
          match firstConfirmed env ch (searchAllJ target meta) with
          | some d => some d
          | none =>
              probeRange env ch cfg.fallback_lo
                ((cfg.fallback_hi + 1 - cfg.fallback_lo).toNat)

def cfgC2 : Config := { manga_slug := "s", fallback_lo := 3, fallback_hi := 3 }

/-- Series metadata holding two candidate matches for chapter 5: volume 1
(first in depth-first order) and volume 2. -/
def envC2 : Env :=
  ⟨none,
   some (.obj [("data", .arr [
      .obj [("number", .jnum 5), ("volume", .jnum 1)],
      .obj [("number", .jnum 5), ("volume", .jnum 2)]])]),
   fun n v => if n == 5 && v == 2 then some (.obj []) else none,
   fun _ => true⟩

/-- Counterexample to C2 as stated: the manifest fetch confirms volume 2 but
not volume 1.  The claimed continue-searching semantics (spec-modelled
`resolve_volume_specSearch`) would return volume 2; the code abandons the
metadata search after the first candidate (volume 1) fails confirmation,
falls through to range probing over [3,3], and resolution fails. -/
theorem C2_counterexample_first_candidate_only :
    resolve_volume cfgC2 envC2 5 = none ∧
    resolve_volume_specSearch cfgC2 envC2 5 = some 2 := by decide

/-- C2 amended: on a candidate match the code does speculatively fetch the
chapter manifest at that volume and accepts it only when the fetch
succeeds; but when confirmation fails the metadata search is abandoned (the
depth-first search yields only its first match) and resolution falls
through to range probing. -/
theorem C2_confirm_or_abandon (cfg : Config) (env : Env) (ch d : Int)
    (hov : cfg.volume_override = none)
    (hlook : (if (fetch_chapters_mapping env.chaptersResp).isEmpty then none
              else lookupR (ch : Rat) (fetch_chapters_mapping env.chaptersResp)) = none)
    (hsearch : searchJ (ch : Rat) (fetch_series_result env.seriesResp) = some d) :
    ((env.chapterResp ch d).isSome = true → resolve_volume cfg env ch = some d) ∧
    ((env.chapterResp ch d).isSome = false →
      resolve_volume cfg env ch =
        probeRange env ch cfg.fallback_lo
          ((cfg.fallback_hi + 1 - cfg.fallback_lo).toNat)) := by
  constructor
  · intro hc
    simp only [resolve_volume, hov, hlook, hsearch]
    rw [if_pos hc]
  · intro hc
    simp only [resolve_volume, hov, hlook, hsearch]
    rw [if_neg (by rw [hc]; exact Bool.false_ne_true)]

/-- Witness for the amended C2, on the same concrete environment as the
counterexample: the unconfirmed first candidate sends resolution to the
(empty-success) probe, and with a confirming manifest the candidate is
returned. -/
theorem C2_confirm_or_abandon_witness :
    resolve_volume cfgC2 envC2 5 =
      probeRange envC2 5 cfgC2.fallback_lo
        ((cfgC2.fallback_hi + 1 - cfgC2.fallback_lo).toNat) := by
  exact (C2_confirm_or_abandon cfgC2 envC2 5 1 rfl (by decide) (by decide)).2
    (by decide)

/-- `sep.join(xs)`. -/
def joinSep (sep : String) : List String → String
  | [] => ""
  | x :: xs =>
      match xs with
      | [] => x
      | _ :: _ => x ++ sep ++ joinSep sep xs

/-- Fractional decimal digits of `n/d` (`n < d`), with fuel; exact whenever
the fraction has a terminating decimal expansion. -/
def fracDigits (n d : Nat) : Nat → List Char
  | 0 => []
  | fuel + 1 =>
      if n = 0 then []
      else Char.ofNat (48 + n * 10 / d) :: fracDigits (n * 10 % d) d fuel

/-- Python `str()` of a number.  Exact for integers and terminating
decimals — the only numeric shapes the program's JSON data takes (Python
floats always terminate); shortest-roundtrip float formatting is not
re-modelled beyond that. -/
def ratStr (q : Rat) : String :=
  if q.den = 1 then toString q.num
  else
    (if q.num < 0 then "-" else "") ++ toString (q.num.natAbs / q.den) ++ "." ++
      String.mk (fracDigits (q.num.natAbs % q.den) q.den 64)

mutual
/-- Python `repr()` of a decoded JSON value (string escaping inside nested
reprs is not re-modelled; no theorem exercises it). -/
def pyRepr : JVal → String
  | .null => "None"
  | .jbool b => if b then "True" else "False"
  | .jnum q => ratStr q
  | .jstr s => String.singleton '\'' ++ s ++ String.singleton '\''
  | .arr l => "[" ++ joinSep ", " (pyReprList l) ++ "]"
  | .obj f => "\x7b" ++ joinSep ", " (pyReprFields f) ++ "\x7d"

def pyReprList : List JVal → List String
  | [] => []
  | v :: rest => pyRepr v :: pyReprList rest

def pyReprFields : List (String × JVal) → List String
  | [] => []
  | (k, v) :: rest =>
      (String.singleton '\'' ++ k ++ String.singleton '\'' ++ ": " ++ pyRepr v) ::
        pyReprFields rest
end

/-- Python `str()` of a decoded JSON value (top level: strings print bare). -/
def pyStr : JVal → String
  | .jstr s => s
  | v => pyRepr v

/-- Split a char list at every occurrence of `c`. -/
def splitOnChar (c : Char) : List Char → List (List Char)
  | [] => [[]]
  | a :: as =>
      let r := splitOnChar c as
      if a = c then [] :: r
      else
        match r with
        | [] => [[a]]
        | h :: t => (a :: h) :: t

/-- `PurePath(s).name`: the last nonempty slash-separated component. -/
def lastPathComponent (s : String) : String :=
  (((splitOnChar '/' s.data).map String.mk).filter (fun c => c ≠ "")).getLastD ""

/-- Index of the last `.` in a char list, if any. -/
def lastDotIdx (cs : List Char) : Option Nat :=
  (cs.enum.filterMap (fun p => if p.2 = '.' then some p.1 else none)).getLast?

/-- `Path(url).suffix`: the extension of the final path component — the part
from its last dot, provided that dot is neither leading nor trailing. -/
def pathSuffix (s : String) : String :=
  let nm := (lastPathComponent s).data
  match lastDotIdx nm with
  | some i => if 0 < i ∧ i + 1 < nm.length then String.mk (nm.drop i) else ""
  | none => ""

/-- Left zero-padding to width `w`. -/
def padZeroLeft (w : Nat) (s : String) : String :=
  if w ≤ s.length then s else String.mk (List.replicate (w - s.length) '0') ++ s

/-- Python `f"{n:0wd}"`: zero-padded to total width `w`, sign included. -/
def fmtZ (w : Nat) (n : Int) : String :=
  if n < 0 then "-" ++ padZeroLeft (w - 1) (toString n.natAbs)
  else padZeroLeft w (toString n.natAbs)

/-- The characters `ChapterDownloader._sanitize` replaces. -/
def hostileChars : List Char := ['\\', '/', '*', '?', ':', '"', '<', '>', '|']

/-- `ChapterDownloader._sanitize` (`main.py` lines 302-306): strip, replace
path-hostile characters with an underscore, truncate to 200 characters. -/
def sanitize (s : String) : String :=
  ⟨((pyStrip s).data.map (fun c =>
    if hostileChars.contains c then '_' else c)).take 200⟩

/-- `ChapterDownloader._build_image_url` (`main.py` lines 308-318); `none`
models the `ValueError` on an empty path. -/
def build_image_url (p : String) (host : String) : Option String :=
  if p = "" then none
  else
    let p1 := if strStarts p "//" then (⟨p.data.drop 1⟩ : String) else p
    if strStarts p1 "http" then some p1
    else if strStarts p1 "/" then some (host ++ p1)
    else some (host ++ "/" ++ p1)

/-- The `urls` list comprehension of `download_chapter` (`main.py` lines
349-353): page entries that are not dicts are skipped by the `isinstance`
filter; for dict entries `p.get("url") or p.get("image", "")` must be a
nonempty string or the comprehension raises (`none`) — an empty or missing
path raises `ValueError` inside `_build_image_url`, a truthy non-string
raises on `startswith`. -/
def build_urls (host : String) : List JVal → Option (List String)
  | [] => some []
  | p :: rest =>
      match p with
      | .obj f =>
          match pyOr (pyGet f "url") (jGetD f "image" (.jstr "")) with
          | .jstr s =>
              match build_image_url s host with
              | none => none
              | some u => (build_urls host rest).map (fun us => u :: us)
          | _ => none
      | _ => build_urls host rest

/-- Python iteration `for x in v` over a decoded JSON value: lists yield
elements, dicts yield their keys, strings yield their characters, anything
else raises `TypeError` (`none`). -/
def iterable_elems : JVal → Option (List JVal)
  | .arr l => some l
  | .obj f => some (f.map (fun kv => .jstr kv.1))
  | .jstr s => some (s.data.map (fun c => .jstr (String.singleton c)))
  | _ => none

/-- The `teams` list comprehension (`main.py` line 344): dict entries
contribute `t.get("name", "")`, non-dict entries are filtered out; a
non-iterable `teams` value raises (`none`). -/
def extract_teams (v : JVal) : Option (List JVal) :=
  (iterable_elems v).map (fun l => l.filterMap (fun t =>
    match t with
    | .obj f => some (jGetD f "name" (.jstr ""))
    | _ => none))

/-- `ChapterInfo` (`main.py` lines 64-72), as populated by
`download_chapter`: `name`, `series_title` and `chapter_id` have already
passed through `str()`, `teams` keeps the raw JSON values the comprehension
produced. -/
structure ChapterInfo where
  number : Int
  volume : Int
  name : String
  pages_count : Nat
  series_title : String
  teams : List JVal
  chapter_id : String

/-- The `meta` dict serialized into the archive's `info.txt`
(`main.py` lines 414-423), kept as a record of its field values. -/
structure MetaRecord where
  series : String
  chapter_number : Int
  volume : Int
  chapter_name : String
  chapter_id : String
  teams : List JVal
  pages : Nat
  created_at : String

/-- The `ComicInfo.xml` element texts (`main.py` lines 391-404). -/
structure ComicInfoXml where
  title : String
  series : String
  number : String
  volume : String
  pageCount : String
  summary : String
  /-- present only when `info.teams` is nonempty. -/
  writer : Option String
  notes : String

/-- Logical content of one produced `.cbz` container: its file name, the
entry names in the order they are written, and the two metadata records. -/
structure CbzFile where
  name : String
  entries : List String
  metaRec : MetaRecord
  comicInfo : ComicInfoXml

/-- Code-point lexicographic comparison of char lists (Python string
comparison). -/
def leCharList : List Char → List Char → Bool
  | [], _ => true
  | _ :: _, [] => false
  | a :: as, b :: bs =>
      if a < b then true
      else if b < a then false
      else leCharList as bs

/-- Python `a <= b` on strings. -/
def leStrB (a b : String) : Bool :=
  leCharList a.data b.data

theorem leCharList_refl : ∀ l : List Char, leCharList l l = true
  | [] => rfl
  | a :: as => by
      simp only [leCharList, lt_irrefl a, if_neg (lt_irrefl a)]
      simpa using leCharList_refl as

theorem leCharList_total : ∀ l₁ l₂ : List Char,
    leCharList l₁ l₂ = true ∨ leCharList l₂ l₁ = true
  | [], _ => Or.inl rfl
  | _ :: _, [] => Or.inr rfl
  | a :: as, b :: bs => by
      rcases lt_trichotomy a b with h | h | h
      · left
        simp [leCharList, h]
      · subst h
        rcases leCharList_total as bs with ih | ih <;>
          simp [leCharList, lt_irrefl a, ih]
      · right
        simp [leCharList, h]

theorem leCharList_antisymm : ∀ l₁ l₂ : List Char,
    leCharList l₁ l₂ = true → leCharList l₂ l₁ = true → l₁ = l₂
  | [], [], _, _ => rfl
  | [], _ :: _, _, h₂ => by cases h₂
  | _ :: _, [], h₁, _ => by cases h₁
  | a :: as, b :: bs, h₁, h₂ => by
      rcases lt_trichotomy a b with h | h | h
      · rw [leCharList, if_neg (lt_asymm h), if_pos h] at h₂
        cases h₂
      · subst h
        rw [leCharList, if_neg (lt_irrefl a), if_neg (lt_irrefl a)] at h₁ h₂
        rw [leCharList_antisymm as bs h₁ h₂]
      · rw [leCharList, if_neg (lt_asymm h), if_pos h] at h₁
        cases h₁

theorem leCharList_trans : ∀ l₁ l₂ l₃ : List Char,
    leCharList l₁ l₂ = true → leCharList l₂ l₃ = true → leCharList l₁ l₃ = true
  | [], _, _, _, _ => rfl
  | _ :: _, [], _, h₁, _ => by cases h₁
  | _ :: _, _ :: _, [], _, h₂ => by cases h₂
  | a :: as, b :: bs, c :: cs, h₁, h₂ => by
      rcases lt_trichotomy a b with hab | hab | hab <;>
        rcases lt_trichotomy b c with hbc | hbc | hbc
      · simp [leCharList, lt_trans hab hbc]
      · subst hbc
        simp [leCharList, hab]
      · rcases lt_trichotomy a c with hac | hac | hac
        · simp [leCharList, hac]
        · subst hac
          simp [leCharList, lt_irrefl a]
          rw [leCharList, if_neg (lt_asymm hbc), if_pos hbc] at h₂
          cases h₂
        · rw [leCharList, if_neg (lt_asymm hbc), if_pos hbc] at h₂
          cases h₂
      · subst hab
        simp [leCharList, hbc]
      · subst hab
        subst hbc
        rw [leCharList, if_neg (lt_irrefl a), if_neg (lt_irrefl a)] at h₁ h₂ ⊢
        exact leCharList_trans as bs cs h₁ h₂
      · subst hab
        rw [leCharList, if_neg (lt_asymm hbc), if_pos hbc] at h₂
        cases h₂
      · rw [leCharList, if_neg (lt_asymm hab), if_pos hab] at h₁
        cases h₁
      · rw [leCharList, if_neg (lt_asymm hab), if_pos hab] at h₁
        cases h₁
      · rw [leCharList, if_neg (lt_asymm hab), if_pos hab] at h₁
        cases h₁

theorem leStrB_refl (a : String) : leStrB a a = true :=
  leCharList_refl a.data

theorem leStrB_total (a b : String) : leStrB a b = true ∨ leStrB b a = true :=
  leCharList_total a.data b.data

theorem leStrB_antisymm {a b : String} (h₁ : leStrB a b = true)
    (h₂ : leStrB b a = true) : a = b := by
  cases a with
  | mk da =>
      cases b with
      | mk db => exact congrArg String.mk (leCharList_antisymm da db h₁ h₂)

theorem leStrB_trans {a b c : String} (h₁ : leStrB a b = true)
    (h₂ : leStrB b c = true) : leStrB a c = true :=
  leCharList_trans a.data b.data c.data h₁ h₂

/-- Insert into a sorted list of strings. -/
def insertSorted (s : String) : List String → List String
  | [] => [s]
  | t :: ts => if leStrB s t then s :: t :: ts else t :: insertSorted s ts

/-- `sorted(...)` over staged file names (Python sorts `Path`s of one
directory by their name strings, code-point lexicographically). -/
def sortStrings : List String → List String
  | [] => []
  | s :: ss => insertSorted s (sortStrings ss)

def leStrP (a b : String) : Prop := leStrB a b = true

instance : IsAntisymm String leStrP := ⟨fun _ _ => leStrB_antisymm⟩

theorem perm_insertSorted (s : String) :
    ∀ l : List String, (insertSorted s l).Perm (s :: l)
  | [] => List.Perm.refl _
  | t :: ts => by
      rw [insertSorted]
      by_cases h : leStrB s t
      · rw [if_pos h]
      · rw [if_neg h]
        exact ((perm_insertSorted s ts).cons t).trans (List.Perm.swap s t ts)

theorem perm_sortStrings : ∀ l : List String, (sortStrings l).Perm l
  | [] => List.Perm.refl _
  | s :: ss =>
      (perm_insertSorted s (sortStrings ss)).trans ((perm_sortStrings ss).cons s)

theorem sorted_insertSorted (s : String) :
    ∀ l : List String, l.Sorted leStrP → (insertSorted s l).Sorted leStrP
  | [], _ => List.sorted_singleton s
  | t :: ts, h => by
      rw [insertSorted]
      rcases List.sorted_cons.mp h with ⟨ht, hts⟩
      by_cases hst : leStrB s t
      · rw [if_pos hst]
        refine List.sorted_cons.mpr ⟨?_, h⟩
        intro b hb
        rcases List.mem_cons.mp hb with rfl | hb
        · exact hst
        · exact leStrB_trans hst (ht b hb)
      · rw [if_neg hst]
        refine List.sorted_cons.mpr ⟨?_, sorted_insertSorted s ts hts⟩
        intro b hb
        have hts' : leStrB t s = true := by
          rcases leStrB_total s t with h' | h'
          · exact absurd h' hst
          · exact h'
        rcases List.mem_cons.mp ((perm_insertSorted s ts).mem_iff.mp hb)
          with rfl | hb
        · exact hts'
        · exact ht b hb

theorem sorted_sortStrings : ∀ l : List String, (sortStrings l).Sorted leStrP
  | [] => List.sorted_nil
  | s :: ss => sorted_insertSorted s (sortStrings ss) (sorted_sortStrings ss)

theorem sortStrings_eq_of_perm {l l' : List String} (h : l.Perm l') :
    sortStrings l = sortStrings l' :=
  List.eq_of_perm_of_sorted
    (((perm_sortStrings l).trans h).trans (perm_sortStrings l').symm)
    (sorted_sortStrings l) (sorted_sortStrings l')

/-- `", ".join(xs)`: `none` models the `TypeError` on a non-string element. -/
def asStrings : List JVal → Option (List String)
  | [] => some []
  | .jstr s :: rest => (asStrings rest).map (fun l => s :: l)
  | _ :: _ => none

def joinComma (l : List JVal) : Option String :=
  (asStrings l).map (joinSep ", ")

/-- `ChapterDownloader._create_comicinfo_xml` (`main.py` lines 391-404);
`now` is the `time.strftime` result; `none` models the `TypeError` raised
by `", ".join` on non-string team entries. -/
def create_comicinfo_xml (cfg : Config) (info : ChapterInfo) (now : String) :
    Option ComicInfoXml :=
  let series := pyOrStr info.series_title cfg.manga_slug
  match (if info.teams.isEmpty then some none
         else (joinComma info.teams).map some : Option (Option String)) with
  | none => none
  | some writer =>
      some { title := pyOrStr info.name ("Chapter " ++ toString info.number)
             series := series
             number := toString info.number
             volume := toString info.volume
             pageCount := toString info.pages_count
             summary := "Chapter " ++ toString info.number ++ " of " ++ series
             writer := writer
             notes := "Generated by MangaLib Downloader v2.0 at " ++ now }

/-- `ChapterDownloader._create_cbz` (`main.py` lines 406-434): sanitized
file name, `info.txt` metadata record, `ComicInfo.xml`, then every staged
file in filename sort order.  `staged` is the list of file names present in
the chapter's temporary workspace; `now` the `time.strftime` result. -/
def create_cbz (cfg : Config) (info : ChapterInfo) (staged : List String)
    (now : String) : Option CbzFile :=
  let sanitized_name := sanitize
    (fmtZ 3 info.number ++ "ch - " ++ pyOrStr info.name "Chapter" ++
      " - vol" ++ fmtZ 2 info.volume)
  let final_series_title := pyOrStr info.series_title cfg.manga_slug
  let meta : MetaRecord :=
    { series := final_series_title
      chapter_number := info.number
      volume := info.volume
      chapter_name := info.name
      chapter_id := info.chapter_id
      teams := info.teams
      pages := info.pages_count
      created_at := now }
  match create_comicinfo_xml cfg info now with
  | none => none
  | some ci =>
      some { name := sanitized_name ++ ".cbz"
             entries := "info.txt" :: "ComicInfo.xml" :: sortStrings staged
             metaRec := meta
             comicInfo := ci }

/-- Observable outcome of one `download_chapter` call: the archive (or
`None`), the image URLs for which a download task was actually scheduled,
and whether the per-chapter temporary workspace still exists afterwards. -/
structure DownloadResult where
  outcome : Option CbzFile
  attempted_urls : List String
  tmp_dir_exists_after : Bool

/-- The staged file name of page `idx` (1-based): `f"{idx:03d}{ext}"` with
the extension taken from the URL, defaulting to `.jpg` (`main.py` lines
362-363). -/
def stagedName (idx : Nat) (url : String) : String :=
  fmtZ 3 (idx : Int) ++ pyOrStr (pathSuffix url) ".jpg"

/-- The staged file names of all pages, in page order (`enumerate` with a
1-based index). -/
def stagedNames (idx : Nat) : List String → List String
  | [] => []
  | u :: us => stagedName idx u :: stagedNames (idx + 1) us

/-- The `try:` body of `ChapterDownloader.download_chapter` (`main.py`
lines 324-385), step by step in source order; the first component is the
returned archive (`none` for every caught exception), the second the URLs
whose downloads were scheduled before the failure, if any. -/
def download_chapter_try (cfg : Config) (env : Env) (ch : Int) (now : String) :
    Option CbzFile × List String :=
  match resolve_volume cfg env ch with
  | none => (none, [])
  | some volume =>
  match env.chapterResp ch volume with
  | none => (none, [])
  | some chapter_json =>
  match chapter_json with
  | .obj cj =>
    match jGetD cj "data" (.obj []) with
    | .obj dataf =>
      let pages := jGetD dataf "pages" (.arr [])
      if pages.truthy = false then (none, [])
      else
        let title_step : Option (Option String) :=
          if pyTruthyOpt cfg.series_title_override = false then
            match fetch_series_result env.seriesResp with
            | .obj mf =>
                some (some (pyStrip (pyStr (pyOr (pyGet mf "name")
                  (pyOr (pyGet mf "title")
                    (pyOr (pyGet dataf "manga_id") (.jstr "Unknown")))))))
            | _ => none
          else some none
        match title_step with
        | none => (none, [])
        | some title_from_api =>
        let series_title := pyOrStrOpt cfg.series_title_override
          (pyOrStrOpt title_from_api cfg.manga_slug)
        let name := pyStrip (pyStr (pyOr (pyGet dataf "name") (.jstr "")))
        match extract_teams (jGetD dataf "teams" (.arr [])) with
        | none => (none, [])
        | some teams =>
        match iterable_elems pages with
        | none => (none, [])
        | some plist =>
        match build_urls cfg.image_host plist with
        | none => (none, [])
        | some urls =>
        if urls.isEmpty then (none, [])
        else
          if urls.all env.imageOk then
            let staged := stagedNames 1 urls
            let info : ChapterInfo :=
              { number := ch
                volume := volume
                name := name
                pages_count := urls.length
                series_title := series_title
                teams := teams
                chapter_id := pyStr (jGetD dataf "id" (.jstr "")) }
            match create_cbz cfg info staged now with
            | some cbz => (some cbz, urls)
            | none => (none, urls)
          else (none, urls)
    | _ => (none, [])
  | _ => (none, [])

/-- `ChapterDownloader.download_chapter` (`main.py` lines 320-389): the
`try` body with its catch-all `except` (every failure becomes `None`), and
the `finally` block, which discards the temporary workspace exactly when
`cleanup_temp` is set — on every exit path. -/
def download_chapter (cfg : Config) (env : Env) (ch : Int) (now : String) :
    DownloadResult :=
  let (outcome, attempted) := download_chapter_try cfg env ch now
  { outcome := outcome
    attempted_urls := attempted
    tmp_dir_exists_after := !cfg.cleanup_temp }

/-- `list(range(start, end + 1))`. -/
def intRange (lo hi : Int) : List Int :=
  (List.range (hi + 1 - lo).toNat).map (fun i => lo + (i : Int))

/-- `ChapterDownloader.download_chapters` (`main.py` lines 436-476): run
every chapter of the inclusive range (each under its own network
environment `envs ch`), gather outcomes without letting one chapter's
failure touch the others, and return the successful archives in chapter
order. -/
def download_chapters (cfg : Config) (envs : Int → Env) (now : String)
    (lo hi : Int) : List CbzFile :=
  let chapters := intRange lo hi
  let results := chapters.map (fun ch => (download_chapter cfg (envs ch) ch now).outcome)
  results.filterMap id

/-- The two caches of `MangaAPIClient` (`main.py` lines 78-79). -/
structure ClientState where
  chapters_map : List (String × List (Rat × Int))
  series_cache : List (String × JVal)

/-- `MangaAPIClient.fetch_chapters_list` (`main.py` lines 153-182) with its
cache: `net` is this call's network outcome (unused on a cache hit); every
failure path yields the empty mapping, and whatever is computed — the empty
failure result included — is stored for the slug. -/
def fetch_chapters_list (net : Option JVal) (st : ClientState) (slug : String) :
    List (Rat × Int) × ClientState :=
  match lookupAssoc slug st.chapters_map with
  | some m => (m, st)
  | none =>
      let mapping := fetch_chapters_mapping net
      (mapping, { st with chapters_map := (slug, mapping) :: st.chapters_map })

/-- `MangaAPIClient.fetch_series_info` (`main.py` lines 184-196) with its
cache; every failure path yields the empty object, and the result — the
empty failure result included — is stored for the slug. -/
def fetch_series_info (net : Option JVal) (st : ClientState) (slug : String) :
    JVal × ClientState :=
  match lookupAssoc slug st.series_cache with
  | some r => (r, st)
  | none =>
      let result := fetch_series_result net
      (result, { st with series_cache := (slug, result) :: st.series_cache })

/-- `MangaAPIClient._get_retry_after` (`main.py` lines 136-141): `ra` is the
`Retry-After` header if present; waits are exact rationals (`0.1·attempt`
is modelled as `attempt/10`). -/
def get_retry_after (ra : Option String) (attempt : Nat) : Rat :=
  match ra with
  | some s =>
      if (!(s == "")) && isdigitStr s then (digitsVal s : Rat) + 1
      else min ((2 : Rat) ^ attempt) 60 + (attempt : Rat) / 10
  | none => min ((2 : Rat) ^ attempt) 60 + (attempt : Rat) / 10

/-- C3: on HTTP 429, the wait before retrying is `Retry-After + 1.0` seconds
when the header is present and a digit string (in particular `Retry-After:
3` waits 4.0 ≥ 4.0 seconds), and `min(2^attempt, 60) + 0.1·attempt` seconds
otherwise — header absent or not numeric — for every attempt number. -/
theorem C3_retry_after_wait :
    (∀ (s : String) (a : Nat), s ≠ "" → s.data.all Char.isDigit = true →
       get_retry_after (some s) a = (digitsVal s : Rat) + 1) ∧
    (∀ a : Nat, get_retry_after (some "3") a = 4 ∧ (4 : Rat) ≥ 4) ∧
    (∀ a : Nat,
       get_retry_after none a = min ((2 : Rat) ^ a) 60 + (a : Rat) / 10) ∧
    (∀ (s : String) (a : Nat), ((!(s == "")) && isdigitStr s) = false →
       get_retry_after (some s) a = min ((2 : Rat) ^ a) 60 + (a : Rat) / 10) := by
  refine ⟨?_, ?_, fun a => rfl, ?_⟩
  · intro s a h1 h2
    have hne : (s == "") = false := by
      simp [h1]
    have hempty : s.data.isEmpty = false := by
      cases s with
      | mk d =>
          cases d with
          | nil => exact absurd rfl h1
          | cons c cs => rfl
    simp [get_retry_after, isdigitStr, hne, hempty, h2]
  · intro a
    refine ⟨?_, le_refl _⟩
    simp only [get_retry_after]
    rw [if_pos (by decide)]
    rw [show digitsVal "3" = 3 from rfl]
    norm_num
  · intro s a h
    simp [get_retry_after, h]

/-- Witness for C3: a digit header of 17 waits 18 seconds, and a non-numeric
header at attempt 3 falls back to `min(2^3, 60) + 3/10`. -/
theorem C3_retry_after_wait_witness :
    get_retry_after (some "17") 5 = (17 : Rat) + 1 ∧
    get_retry_after (some "3s") 3 = min ((2 : Rat) ^ 3) 60 + (3 : Rat) / 10 := by
  constructor
  · have h := C3_retry_after_wait.1 "17" 5 (by decide) (by decide)
    rw [h, show digitsVal "17" = 17 from rfl]
    norm_num
  · exact C3_retry_after_wait.2.2.2 "3s" 3 (by decide)

/-- C7: when `cleanup_temp` is enabled the per-chapter temporary workspace
is gone after `download_chapter` returns, on every exit path — the removal
sits in the `finally` block, so success and every caught failure alike pass
through it. -/
theorem C7_workspace_cleanup (cfg : Config) (env : Env) (ch : Int)
    (now : String) (h : cfg.cleanup_temp = true) :
    (download_chapter cfg env ch now).tmp_dir_exists_after = false := by
  unfold download_chapter
  rcases download_chapter_try cfg env ch now with ⟨o, a⟩
  simp [h]

def cfgC7 : Config := { manga_slug := "s" }

/-- Witness for C7 on a fully failing environment (an error exit path). -/
theorem C7_workspace_cleanup_witness :
    (download_chapter cfgC7 envAllFail 1 "t").tmp_dir_exists_after = false :=
  C7_workspace_cleanup cfgC7 envAllFail 1 "t" rfl

/-- `MetaRecord` without its generation timestamp. -/
def metaSansTimestamp (m : MetaRecord) :
    String × Int × Int × String × String × List JVal × Nat :=
  (m.series, m.chapter_number, m.volume, m.chapter_name, m.chapter_id,
    m.teams, m.pages)

/-- `ComicInfoXml` without its generator note (the only timestamped field). -/
def comicInfoSansNotes (c : ComicInfoXml) :
    String × String × String × String × String × String × Option String :=
  (c.title, c.series, c.number, c.volume, c.pageCount, c.summary, c.writer)

/-- C8: archiving is deterministic up to timestamps — for the same staged
files and the same chapter info, two archiver runs (differing only in the
clock readings `t1`, `t2`) agree on the archive name, the entry list (same
page set, same order), every `info.txt` field except `created_at`, and
every `ComicInfo.xml` field except the timestamped `Notes`. -/
theorem C8_archive_deterministic (cfg : Config) (info : ChapterInfo)
    (staged : List String) (t1 t2 : String) :
    (create_cbz cfg info staged t1).map (fun c => c.name) =
      (create_cbz cfg info staged t2).map (fun c => c.name) ∧
    (create_cbz cfg info staged t1).map (fun c => c.entries) =
      (create_cbz cfg info staged t2).map (fun c => c.entries) ∧
    (create_cbz cfg info staged t1).map (fun c => metaSansTimestamp c.metaRec) =
      (create_cbz cfg info staged t2).map (fun c => metaSansTimestamp c.metaRec) ∧
    (create_cbz cfg info staged t1).map (fun c => comicInfoSansNotes c.comicInfo) =
      (create_cbz cfg info staged t2).map (fun c => comicInfoSansNotes c.comicInfo) := by
  simp only [create_cbz, create_comicinfo_xml]
  cases hj : (if info.teams.isEmpty then (some none : Option (Option String))
              else (joinComma info.teams).map some) with
  | none => simp
  | some w => simp [metaSansTimestamp, comicInfoSansNotes]

/-- C9: the two metadata fetchers never raise and cache everything.  On an
uncached slug `fetch_chapters_list` returns exactly the parsed mapping of
this call's network outcome and stores it; a failed fetch parses to the
empty mapping / empty object (so the failure is cached too); and a second
call for the same slug returns the first call's result with the state
unchanged, whatever the network would do this time — no new fetch can
influence it. -/
theorem C9_fetch_caching :
    (∀ (net : Option JVal) (st : ClientState) (slug : String),
       lookupAssoc slug st.chapters_map = none →
       fetch_chapters_list net st slug =
         (fetch_chapters_mapping net,
          { st with chapters_map :=
              (slug, fetch_chapters_mapping net) :: st.chapters_map })) ∧
    (fetch_chapters_mapping none = [] ∧ fetch_series_result none = .obj []) ∧
    (∀ (net : Option JVal) (st : ClientState) (slug : String),
       lookupAssoc slug st.series_cache = none →
       fetch_series_info net st slug =
         (fetch_series_result net,
          { st with series_cache :=
              (slug, fetch_series_result net) :: st.series_cache })) ∧
    (∀ (net1 net2 : Option JVal) (st : ClientState) (slug : String),
       fetch_chapters_list net2 (fetch_chapters_list net1 st slug).2 slug =
         fetch_chapters_list net1 st slug) ∧
    (∀ (net1 net2 : Option JVal) (st : ClientState) (slug : String),
       fetch_series_info net2 (fetch_series_info net1 st slug).2 slug =
         fetch_series_info net1 st slug) := by
  refine ⟨?_, ⟨rfl, rfl⟩, ?_, ?_, ?_⟩
  · intro net st slug h
    simp [fetch_chapters_list, h]
  · intro net st slug h
    simp [fetch_series_info, h]
  · intro net1 net2 st slug
    cases h : lookupAssoc slug st.chapters_map with
    | some m => simp [fetch_chapters_list, h]
    | none => simp [fetch_chapters_list, h, lookupAssoc]
  · intro net1 net2 st slug
    cases h : lookupAssoc slug st.series_cache with
    | some r => simp [fetch_series_info, h]
    | none => simp [fetch_series_info, h, lookupAssoc]

/-- Witness for C9: starting from empty caches, a failed chapters fetch and
a failed series fetch return the empty mapping and empty object and cache
them under the slug. -/
theorem C9_fetch_caching_witness :
    fetch_chapters_list none ⟨[], []⟩ "slug" =
      ([], ⟨[("slug", [])], []⟩) ∧
    fetch_series_info none ⟨[], []⟩ "slug" =
      (.obj [], ⟨[], [("slug", .obj [])]⟩) := by
  constructor
  · exact C9_fetch_caching.1 none ⟨[], []⟩ "slug" rfl
  · exact C9_fetch_caching.2.2.1 none ⟨[], []⟩ "slug" rfl

/-- C6: a fetched chapter manifest whose `pages` list is empty fails the
chapter — outcome `None` (the "No pages found" `ValueError` is caught at
the chapter boundary) — and no image download is ever attempted: the
failure fires before any download task is created. -/
theorem C6_empty_chapter_no_downloads (cfg : Config) (env : Env)
    (ch vol : Int) (now : String) (cj df : List (String × JVal))
    (hres : resolve_volume cfg env ch = some vol)
    (hfetch : env.chapterResp ch vol = some (.obj cj))
    (hdata : jGetD cj "data" (.obj []) = .obj df)
    (hpages : jGetD df "pages" (.arr []) = .arr []) :
    (download_chapter cfg env ch now).outcome = none ∧
    (download_chapter cfg env ch now).attempted_urls = [] := by
  have htry : download_chapter_try cfg env ch now = (none, []) := by
    unfold download_chapter_try
    simp only [hres, hfetch, hdata, hpages]
    rfl
  unfold download_chapter
  rw [htry]
  exact ⟨rfl, rfl⟩

def cfgC6 : Config := { manga_slug := "s", volume_override := some 1 }

def envC6 : Env :=
  ⟨none, none,
   fun _ v => if v == 1 then some (.obj [("data", .obj [("pages", .arr [])])])
     else none,
   fun _ => true⟩

/-- Witness for C6 on a concrete empty-chapter manifest. -/
theorem C6_empty_chapter_no_downloads_witness :
    (download_chapter cfgC6 envC6 2 "t").outcome = none ∧
    (download_chapter cfgC6 envC6 2 "t").attempted_urls = [] :=
  C6_empty_chapter_no_downloads cfgC6 envC6 2 1 "t"
    [("data", .obj [("pages", .arr [])])] [("pages", .arr [])]
    rfl rfl rfl rfl

def cfgC10 : Config :=
  { manga_slug := "s", volume_override := some 1,
    series_title_override := some "T" }

/-- Pages: one valid entry, then a dict entry with neither `url` nor
`image`. -/
def envC10bad : Env :=
  ⟨none, none,
   fun _ v => if v == 1 then some (.obj [("data", .obj
     [("pages", .arr [.obj [("url", .jstr "https://h/a.jpg")], .obj []]),
      ("name", .jstr "N")])]) else none,
   fun _ => true⟩

/-- Pages: a non-dict junk entry, then a valid entry. -/
def envC10ok : Env :=
  ⟨none, none,
   fun _ v => if v == 1 then some (.obj [("data", .obj
     [("pages", .arr [.jstr "junk", .obj [("url", .jstr "https://h/a.jpg")]]),
      ("name", .jstr "N")])]) else none,
   fun _ => true⟩

/-- C10: in image-URL derivation, (1) a page entry that is not a mapping is
silently dropped by the `isinstance` filter and contributes nothing; (2) a
mapping entry whose `url` and `image` fields are both missing or empty
makes the whole comprehension raise (`_build_image_url` rejects the empty
path), whatever the other entries are; (3) concretely, a chapter whose
second page is such an empty mapping fails entirely — no archive — even
though its first page has a valid URL, while (4) a chapter with a junk
non-mapping first page and a valid second page still succeeds. -/
theorem C10_url_derivation_strictness :
    (∀ (host : String) (p : JVal) (rest : List JVal), p.isObj = false →
       build_urls host (p :: rest) = build_urls host rest) ∧
    (∀ (host : String) (f : List (String × JVal)) (rest : List JVal),
       (pyGet f "url" = .null ∨ pyGet f "url" = .jstr "") →
       (jGetD f "image" (.jstr "") = .null ∨ jGetD f "image" (.jstr "") = .jstr "") →
       build_urls host (.obj f :: rest) = none) ∧
    (download_chapter cfgC10 envC10bad 1 "t").outcome = none ∧
    ((download_chapter cfgC10 envC10ok 1 "t").outcome.map (fun c => c.entries) =
       some ["info.txt", "ComicInfo.xml", "001.jpg"]) := by
  refine ⟨?_, ?_, rfl, by decide⟩
  · intro host p rest hp
    cases p <;> first
      | rfl
      | exact absurd hp (by simp [JVal.isObj])
  · intro host f rest hurl himg
    rcases hurl with hurl | hurl <;> rcases himg with himg | himg <;>
      simp [build_urls, pyOr, hurl, himg, JVal.truthy, build_image_url]

/-- Witness for C10's universally quantified parts: a junk string entry is
skipped, and an empty mapping entry poisons the whole list even with a
valid entry behind it. -/
theorem C10_url_derivation_strictness_witness :
    build_urls "https://h" [.jstr "junk", .obj [("url", .jstr "https://h/a.jpg")]] =
      build_urls "https://h" [.obj [("url", .jstr "https://h/a.jpg")]] ∧
    build_urls "https://h" [.obj [], .obj [("url", .jstr "https://h/a.jpg")]] =
      none := by
  constructor
  · exact C10_url_derivation_strictness.1 "https://h" (.jstr "junk")
      [.obj [("url", .jstr "https://h/a.jpg")]] rfl
  · exact C10_url_derivation_strictness.2.1 "https://h" []
      [.obj [("url", .jstr "https://h/a.jpg")]] (Or.inl rfl) (Or.inr rfl)

theorem length_filterMap_of_isSome {α β : Type} (f : α → Option β) :
    ∀ l : List α, (∀ a ∈ l, (f a).isSome = true) →
      (l.filterMap f).length = l.length := by
  intro l
  induction l with
  | nil => intro _; rfl
  | cons a t ih =>
      intro h
      rcases Option.isSome_iff_exists.mp (h a (List.mem_cons_self a t)) with ⟨b, hb⟩
      simp only [List.filterMap_cons, hb, List.length_cons]
      rw [ih (fun x hx => h x (List.mem_cons_of_mem a hx))]

/-- C4: `download_chapter` converts every internal failure into a `None`
outcome at its own boundary (shown here for an unresolved volume and for a
failed manifest fetch; the embedding's catch-all makes every other internal
failure a `None` outcome by the same single `except` block), so in a batch
over [52, 60] an irrecoverable failure of chapter 55 cannot touch its
siblings: the reported successes are exactly the per-chapter outcomes of
the other chapters, and when those all succeed the batch reports 8
completed chapters. -/
theorem C4_batch_isolation (cfg : Config) (envs : Int → Env) (now : String)
    (h55 : (download_chapter cfg (envs 55) 55 now).outcome = none)
    (hok : ∀ ch : Int, 52 ≤ ch → ch ≤ 60 → ch ≠ 55 →
      ((download_chapter cfg (envs ch) ch now).outcome).isSome = true) :
    download_chapters cfg envs now 52 60 =
      ((intRange 52 60).filter (fun c => c ≠ 55)).filterMap
        (fun ch => (download_chapter cfg (envs ch) ch now).outcome) ∧
    (download_chapters cfg envs now 52 60).length = 8 ∧
    (∀ (cfg₂ : Config) (env₂ : Env) (ch₂ : Int) (now₂ : String),
       resolve_volume cfg₂ env₂ ch₂ = none →
       (download_chapter cfg₂ env₂ ch₂ now₂).outcome = none) ∧
    (∀ (cfg₂ : Config) (env₂ : Env) (ch₂ vol₂ : Int) (now₂ : String),
       resolve_volume cfg₂ env₂ ch₂ = some vol₂ →
       env₂.chapterResp ch₂ vol₂ = none →
       (download_chapter cfg₂ env₂ ch₂ now₂).outcome = none) := by
  have hr : intRange 52 60 = [52, 53, 54, 55, 56, 57, 58, 59, 60] := by decide
  have hfil : (intRange 52 60).filter (fun c => c ≠ 55) =
      [52, 53, 54, 56, 57, 58, 59, 60] := by decide
  have heq : download_chapters cfg envs now 52 60 =
      ((intRange 52 60).filter (fun c => c ≠ 55)).filterMap
        (fun ch => (download_chapter cfg (envs ch) ch now).outcome) := by
    simp only [download_chapters, hr, hfil, List.map_cons, List.map_nil,
      List.filterMap_cons, List.filterMap_nil, id_eq, h55]
    rfl
  refine ⟨heq, ?_, ?_, ?_⟩
  · rw [heq, hfil]
    rw [length_filterMap_of_isSome _ _ ?_]
    · rfl
    · intro a ha
      fin_cases ha <;> exact hok _ (by decide) (by decide) (by decide)
  · intro cfg₂ env₂ ch₂ now₂ hres
    unfold download_chapter download_chapter_try
    simp only [hres]
  · intro cfg₂ env₂ ch₂ vol₂ now₂ hres hman
    unfold download_chapter download_chapter_try
    simp only [hres, hman]

def cfgC4 : Config :=
  { manga_slug := "s", volume_override := some 1,
    series_title_override := some "T" }

def envC4ok : Env :=
  ⟨none, none,
   fun _ v => if v == 1 then some (.obj [("data", .obj
     [("pages", .arr [.obj [("url", .jstr "https://h/a.jpg")]]),
      ("name", .jstr "N")])]) else none,
   fun _ => true⟩

/-- Chapter 55's requests all fail; every other chapter's succeed. -/
def envsC4 : Int → Env := fun ch => if ch = 55 then envAllFail else envC4ok

/-- Witness for C4: with chapter 55 failing irrecoverably and the rest
succeeding, the batch over [52, 60] still reports 8 successes. -/
theorem C4_batch_isolation_witness :
    (download_chapters cfgC4 envsC4 "t" 52 60).length = 8 := by
  refine (C4_batch_isolation cfgC4 envsC4 "t" rfl ?_).2.1
  intro ch h1 h2 h3
  rw [show envsC4 ch = envC4ok from if_neg h3]
  rfl

/-- C5: for a successfully retrieved chapter whose three pages carry
absolute image URLs with extensions `.jpg`, `.png`, `.webp`, the produced
archive is named `{chapterNum:03d}ch - {name} - vol{volume:02d}.cbz` (after
sanitizing — hostile characters to `_`, truncation to 200 characters) and
its entries are exactly the machine-readable metadata entry `info.txt`, the
comic-metadata entry `ComicInfo.xml`, and the three image entries
`001.jpg, 002.png, 003.webp` in that order; and the archiver's output is
invariant under any permutation of the staged files (download completion
order cannot influence it — entries are added in filename sort order). -/
theorem C5_archive_layout (cfg : Config) (env : Env) (ch vol : Int)
    (now t nm u1 u2 u3 : String)
    (hov : cfg.volume_override = some vol)
    (hti : cfg.series_title_override = some t) (ht : t ≠ "")
    (hfetch : env.chapterResp ch vol = some (.obj [("data", .obj
       [("pages", .arr [.obj [("url", .jstr u1)], .obj [("url", .jstr u2)],
                        .obj [("url", .jstr u3)]]),
        ("name", .jstr nm)])]))
    (hnm : pyStrip nm ≠ "")
    (h1h : strStarts u1 "http" = true) (h1s : strStarts u1 "//" = false)
    (h1e : pathSuffix u1 = ".jpg")
    (h2h : strStarts u2 "http" = true) (h2s : strStarts u2 "//" = false)
    (h2e : pathSuffix u2 = ".png")
    (h3h : strStarts u3 "http" = true) (h3s : strStarts u3 "//" = false)
    (h3e : pathSuffix u3 = ".webp")
    (hi1 : env.imageOk u1 = true) (hi2 : env.imageOk u2 = true)
    (hi3 : env.imageOk u3 = true) :
    ((download_chapter cfg env ch now).outcome.map (fun c => c.name) =
       some (sanitize (fmtZ 3 ch ++ "ch - " ++ pyStrip nm ++ " - vol" ++
         fmtZ 2 vol) ++ ".cbz")) ∧
    ((download_chapter cfg env ch now).outcome.map (fun c => c.entries) =
       some ["info.txt", "ComicInfo.xml", "001.jpg", "002.png", "003.webp"]) ∧
    (∀ (info : ChapterInfo) (l l' : List String) (n : String), l.Perm l' →
       create_cbz cfg info l n = create_cbz cfg info l' n) := by
  have hres : resolve_volume cfg env ch = some vol := by
    simp [resolve_volume, hov]
  have hnm0 : nm ≠ "" := by
    intro h
    rw [h] at hnm
    exact hnm rfl
  have hu1ne : u1 ≠ "" := by
    intro h
    rw [h] at h1h
    exact absurd h1h (by decide)
  have hu2ne : u2 ≠ "" := by
    intro h
    rw [h] at h2h
    exact absurd h2h (by decide)
  have hu3ne : u3 ≠ "" := by
    intro h
    rw [h] at h3h
    exact absurd h3h (by decide)
  have hb1 : build_image_url u1 cfg.image_host = some u1 := by
    rw [build_image_url, if_neg hu1ne]
    simp [h1s, h1h]
  have hb2 : build_image_url u2 cfg.image_host = some u2 := by
    rw [build_image_url, if_neg hu2ne]
    simp [h2s, h2h]
  have hb3 : build_image_url u3 cfg.image_host = some u3 := by
    rw [build_image_url, if_neg hu3ne]
    simp [h3s, h3h]
  have hurls : build_urls cfg.image_host
      [.obj [("url", .jstr u1)], .obj [("url", .jstr u2)],
       .obj [("url", .jstr u3)]] = some [u1, u2, u3] := by
    simp only [build_urls, pyGet, jGetD, lookupAssoc, if_pos rfl,
      Option.getD_some, pyOr, JVal.truthy, hb1, hb2, hb3]
    simp [hu1ne, hu2ne, hu3ne, hb1, hb2, hb3]
  have hs1 : stagedName 1 u1 = "001.jpg" := by
    unfold stagedName
    rw [h1e]
    decide
  have hs2 : stagedName 2 u2 = "002.png" := by
    unfold stagedName
    rw [h2e]
    decide
  have hs3 : stagedName 3 u3 = "003.webp" := by
    unfold stagedName
    rw [h3e]
    decide
  have hsort : sortStrings ["001.jpg", "002.png", "003.webp"] =
      ["001.jpg", "002.png", "003.webp"] := by decide
  have hC5try : download_chapter_try cfg env ch now =
      (some ⟨sanitize (fmtZ 3 ch ++ "ch - " ++ pyStrip nm ++ " - vol" ++
          fmtZ 2 vol) ++ ".cbz",
        ["info.txt", "ComicInfo.xml", "001.jpg", "002.png", "003.webp"],
        ⟨t, ch, vol, pyStrip nm, "", [], 3, now⟩,
        ⟨pyStrip nm, t, toString ch, toString vol, toString (3 : Nat),
         "Chapter " ++ toString ch ++ " of " ++ t, none,
         "Generated by MangaLib Downloader v2.0 at " ++ now⟩⟩,
       [u1, u2, u3]) := by
    unfold download_chapter_try
    simp only [hres, hfetch, jGetD, pyGet, lookupAssoc, hti]
    simp only [Option.getD_some, if_true]
    simp [pyTruthyOpt, ht, hnm0, extract_teams, iterable_elems, hurls,
      JVal.truthy, pyStr, pyOr, pyOrStrOpt, pyOrStr, hs1, hs2, hs3, hsort,
      hi1, hi2, hi3, stagedNames, create_cbz, create_comicinfo_xml,
      joinComma, asStrings, lookupAssoc, jGetD, pyGet, hnm]
  refine ⟨?_, ?_, ?_⟩
  · unfold download_chapter
    rw [hC5try]
    rfl
  · unfold download_chapter
    rw [hC5try]
    rfl
  · intro info l l₂ n hperm
    unfold create_cbz
    rw [sortStrings_eq_of_perm hperm]

def cfgC5 : Config :=
  { manga_slug := "s", volume_override := some 4,
    series_title_override := some "T" }

def envC5 : Env :=
  ⟨none, none,
   fun _ v => if v == 4 then some (.obj [("data", .obj
     [("pages", .arr [.obj [("url", .jstr "https://h/a.jpg")],
                      .obj [("url", .jstr "https://h/b.png")],
                      .obj [("url", .jstr "https://h/c.webp")]]),
      ("name", .jstr "Nm")])]) else none,
   fun _ => true⟩

/-- Witness for C5 on concrete pages `a.jpg`, `b.png`, `c.webp` of chapter
12 in volume 4. -/
theorem C5_archive_layout_witness :
    (download_chapter cfgC5 envC5 12 "t").outcome.map (fun c => c.name) =
      some "012ch - Nm - vol04.cbz" ∧
    (download_chapter cfgC5 envC5 12 "t").outcome.map (fun c => c.entries) =
      some ["info.txt", "ComicInfo.xml", "001.jpg", "002.png", "003.webp"] := by
  have h := C5_archive_layout cfgC5 envC5 12 4 "t" "T" "Nm"
    "https://h/a.jpg" "https://h/b.png" "https://h/c.webp"
    rfl rfl (by decide) rfl (by decide)
    (by decide) (by decide) (by decide)
    (by decide) (by decide) (by decide)
    (by decide) (by decide) (by decide)
    rfl rfl rfl
  refine ⟨?_, h.2.1⟩
  rw [h.1]
  decide
